import Mathlib

/-!
Verification of the GELF UDP writer core (`gelf/udpwriter.go`): chunk
planning, compression-path error handling, buffer-pool balance, the
direct-send short-write check, the stream-sink adapter, and constructor
defaults.  Byte payloads are modelled as lists of byte values; the
external collaborators (JSON marshalling, the gzip/zlib codecs, the
datagram socket, and the chunked sender defined in another file of the
repository) are modelled as an explicit environment of oracles whose
results the embedded control flow threads exactly as the source does.
-/

namespace Gelf

/-- Byte sequences are modelled as lists of byte values. -/
abbrev Bytes := List Nat

/-- Errors that flow through the writer: opaque errors produced by the
collaborators (marshalling, codec construction, codec write, transport),
and the short-write error the writer itself synthesizes with
`fmt.Errorf("bad write (%d/%d)", n, len(zBytes))`. -/
inductive Err where
  | external (tag : String)
  | badWrite (n expected : Nat)
deriving DecidableEq, Repr

/-- How one `WriteMessage` call ends: normal return with `nil` error,
normal return with a non-nil error, or a runtime panic. -/
inductive Outcome where
  | ok
  | error (e : Err)
  | panicked (msg : String)
deriving DecidableEq, Repr

/-- Source struct `type UDPWriter struct { Writer; CompressionLevel int; CompressionType CompressType }`.
`CompressType` is a Go `int`, so it is modelled as an integer; the socket
and hostname/facility metadata live in the embedded `Writer` and do not
affect the logic verified here. -/
structure UDPWriter where
  CompressionLevel : Int
  CompressionType : Int
deriving DecidableEq, Repr

/-- Source constant `CompressGzip CompressType = iota`. -/
def CompressGzip : Int := 0
/-- Source constant `CompressZlib`. -/
def CompressZlib : Int := 1
/-- Source constant `CompressNone`. -/
def CompressNone : Int := 2

/-- Source constant `ChunkSize = 1420`. -/
def ChunkSize : Nat := 1420
/-- Source constant `chunkedHeaderLen = 12`. -/
def chunkedHeaderLen : Nat := 12
/-- Source constant `chunkedDataLen = ChunkSize - chunkedHeaderLen`. -/
def chunkedDataLen : Nat := ChunkSize - chunkedHeaderLen

/-- Function `numChunks` from udpwriter.go:

    func numChunks(b []byte) int {
        lenB := len(b)
        if lenB <= ChunkSize {
            return 1
        }
        return len(b)/chunkedDataLen + 1
    }
-/
def numChunks (b : Bytes) : Nat :=
  if b.length ≤ ChunkSize then 1
  else b.length / chunkedDataLen + 1

/-- The external collaborators of one `WriteMessage` call, as oracles:
the result of `m.MarshalJSONBuf(mBuf)` (the serialized record bytes or an
error), the error results of `gzip.NewWriterLevel` / `zlib.NewWriterLevel`,
of `zw.Write(mBytes)` and of `zw.Close()`, the codec's output (the
contents of `zBuf` after a successful write and close), the datagram
socket's `conn.Write` (returning a byte count and an error), and the
error result of `w.writeChunked` (defined in another source file of the
repository and treated as an external call here). -/
structure Env where
  marshal : Except Err Bytes
  newWriterErr : Option Err
  zwWriteErr : Option Err
  zwCloseErr : Option Err
  compress : Bytes → Bytes
  connWrite : Bytes → Nat × Option Err
  writeChunkedErr : Bytes → Option Err

/-- Observable result of one `WriteMessage` call: how it ended, the
number of pooled buffers obtained through `newBuffer()` during the call,
the number of `bufPool.Put` calls executed by its deferred statements
(Go runs defers both on return and during panic unwinding), whether
`zw.Close()` was invoked, the payloads passed to `conn.Write` directly
by `WriteMessage`, and the payload handed to `w.writeChunked`, if any. -/
structure WMResult where
  outcome : Outcome
  acquired : Nat
  released : Nat
  zwClosed : Bool
  sent : List Bytes
  chunkedWith : Option Bytes
deriving Repr

/-- The tail of `WriteMessage` once `zBytes` is determined:

    if numChunks(zBytes) > 1 {
        return w.writeChunked(zBytes)
    }
    n, err := w.conn.Write(zBytes)
    if err != nil {
        return
    }
    if n != len(zBytes) {
        return fmt.Errorf("bad write (%d/%d)", n, len(zBytes))
    }
    return nil

`acq` is the number of pooled buffers acquired (and deferred for
release) so far; `closed` records whether `zw.Close()` ran. -/
def sendPhase (env : Env) (zBytes : Bytes) (acq : Nat) (closed : Bool) : WMResult :=
  if numChunks zBytes > 1 then
    match env.writeChunkedErr zBytes with
    | some e => { outcome := .error e, acquired := acq, released := acq,
                  zwClosed := closed, sent := [], chunkedWith := some zBytes }
    | none => { outcome := .ok, acquired := acq, released := acq,
                zwClosed := closed, sent := [], chunkedWith := some zBytes }
  else
    match env.connWrite zBytes with
    | (_, some e) => { outcome := .error e, acquired := acq, released := acq,
                       zwClosed := closed, sent := [zBytes], chunkedWith := none }
    | (n, none) =>
      if n ≠ zBytes.length then
        { outcome := .error (.badWrite n zBytes.length), acquired := acq,
          released := acq, zwClosed := closed, sent := [zBytes], chunkedWith := none }
      else
        { outcome := .ok, acquired := acq, released := acq,
          zwClosed := closed, sent := [zBytes], chunkedWith := none }

/-- The `case CompressGzip` / `case CompressZlib` arms plus the
`if zw != nil` block.  Both arms acquire a second pooled buffer `zBuf`
(with a deferred `bufPool.Put`) and construct a codec writer; they differ
only in which codec is constructed, which the model folds into `env`.
Because `zw` is an `io.WriteCloser` interface assigned from a concrete
pointer type, it compares non-nil even when the constructor returned a
nil pointer together with an error, so the `if zw != nil` block always
runs on these arms and the constructor error is returned there:

    if zw != nil {
        if err != nil {
            return
        }
        if _, err = zw.Write(mBytes); err != nil {
            zw.Close()
            return
        }
        zw.Close()
        zBytes = zBuf.Bytes()
    }

Both `zw.Close()` calls discard the close error. -/
def compressedBranch (env : Env) (mBytes : Bytes) : WMResult :=
  match env.newWriterErr with
  | some e => { outcome := .error e, acquired := 2, released := 2,
                zwClosed := false, sent := [], chunkedWith := none }
  | none =>
    match env.zwWriteErr with
    | some e => { outcome := .error e, acquired := 2, released := 2,
                  zwClosed := true, sent := [], chunkedWith := none }
    | none => sendPhase env (env.compress mBytes) 2 true

/-- Function `func (w *UDPWriter) WriteMessage(m *Message) (err error)`.

    mBuf := newBuffer()
    defer bufPool.Put(mBuf)
    if err = m.MarshalJSONBuf(mBuf); err != nil {
        return err
    }
    mBytes := mBuf.Bytes()
    ...
    switch w.CompressionType {
    case CompressGzip:  ... (compressedBranch)
    case CompressZlib:  ... (compressedBranch)
    case CompressNone:  zBytes = mBytes
    default:            panic(fmt.Sprintf("unknown compression type %d", w.CompressionType))
    }
    ... (sendPhase)

The deferred `bufPool.Put(mBuf)` also runs while a panic unwinds, so the
panicking arm still records one release. -/
def WriteMessage (w : UDPWriter) (env : Env) : WMResult :=
  match env.marshal with
  | .error e => { outcome := .error e, acquired := 1, released := 1,
                  zwClosed := false, sent := [], chunkedWith := none }
  | .ok mBytes =>
    if w.CompressionType = CompressGzip then
      compressedBranch env mBytes
    else if w.CompressionType = CompressZlib then
      compressedBranch env mBytes
    else if w.CompressionType = CompressNone then
      sendPhase env mBytes 1 false
    else
      { outcome := .panicked ("unknown compression type " ++ toString w.CompressionType),
        acquired := 1, released := 1, zwClosed := false, sent := [], chunkedWith := none }

/-- Result of the stream-sink adapter `Write`: a normal `(n, err)` return
or a propagated panic. -/
inductive WriteRet where
  | ret (n : Nat) (err : Option Err)
  | panicked (msg : String)
deriving DecidableEq, Repr

/-- Function `func (w *UDPWriter) Write(p []byte) (n int, err error)`.
`getCallerIgnoringLogMulti` and `constructMessage` are external
collaborators whose effect on the serialized record is already folded
into `env.marshal`.

    if err = w.WriteMessage(m); err != nil {
        return 0, err
    }
    return len(p), nil
-/
def Write (w : UDPWriter) (env : Env) (p : Bytes) : WriteRet :=
  match (WriteMessage w env).outcome with
  | .panicked msg => .panicked msg
  | .error e => .ret 0 (some e)
  | .ok => .ret p.length none

/-- Constant `BestSpeed = 1` from Go stdlib `compress/flate`. -/
def flateBestSpeed : Int := 1

/-- Result of `w := new(UDPWriter)`: Go zero value of the struct fields. -/
def zeroUDPWriter : UDPWriter := { CompressionLevel := 0, CompressionType := 0 }

/-- Function `func NewUDPWriter(addr string) (*UDPWriter, error)`.  The results of
`net.Dial` and `os.Hostname` are oracles; `w.Facility` lives in the
embedded `Writer` and is not modelled.

    w := new(UDPWriter)
    w.CompressionLevel = flate.BestSpeed
    if w.conn, err = net.Dial("udp", addr); err != nil { return nil, err }
    if w.hostname, err = os.Hostname(); err != nil { return nil, err }
    w.Facility = path.Base(os.Args[0])
    return w, nil
-/
def NewUDPWriter (dialErr hostnameErr : Option Err) : Except Err UDPWriter :=
  let w := { zeroUDPWriter with CompressionLevel := flateBestSpeed }
  match dialErr with
  | some e => .error e
  | none =>
    match hostnameErr with
    | some e => .error e
    | none => .ok w

/-! ## Concrete writers and environments used as witnesses -/

/-- A writer configured for gzip compression. -/
def gzipWriter : UDPWriter := { CompressionLevel := 1, CompressionType := CompressGzip }

/-- A writer configured for no compression. -/
def noneWriter : UDPWriter := { CompressionLevel := 1, CompressionType := CompressNone }

/-- A writer whose compression type is none of the three enumerators. -/
def badTypeWriter : UDPWriter := { CompressionLevel := 1, CompressionType := 3 }

/-- An environment where every collaborator succeeds and the transport
reports the full byte count. -/
def envOk : Env :=
  { marshal := .ok [1, 2, 3]
    newWriterErr := none
    zwWriteErr := none
    zwCloseErr := none
    compress := fun b => b
    connWrite := fun b => (b.length, none)
    writeChunkedErr := fun _ => none }

/-- An environment where only the compressor's Close reports an error. -/
def envCloseErr : Env :=
  { envOk with zwCloseErr := some (.external "close failed")
               compress := fun _ => [7, 7] }

/-- An environment where the codec write fails and Close then also fails. -/
def envWriteCloseErr : Env :=
  { envOk with zwWriteErr := some (.external "gzip write failed")
               zwCloseErr := some (.external "close failed") }

/-- An environment where the transport reports 2 bytes written for a
3-byte payload, with no transport error. -/
def envShortWrite : Env :=
  { envOk with connWrite := fun _ => (2, none) }

/-! ## Theorems -/

theorem length_replicate_nat (n : Nat) : (List.replicate n (0:Nat)).length = n :=
  List.length_replicate n 0

theorem numChunks_replicate (n : Nat) :
    numChunks (List.replicate n (0:Nat)) =
      if n ≤ ChunkSize then 1 else n / chunkedDataLen + 1 := by
  rw [numChunks, length_replicate_nat]

/-- C1 counterexample: at a payload of 2816 bytes (an exact multiple of
1408, and longer than ChunkSize), `numChunks` returns 3, not the
ceiling `⌈2816 / 1408⌉ = 2`, so the claim as stated fails. -/
theorem numChunks_ceiling_counterexample :
    ChunkSize < (List.replicate 2816 (0:Nat)).length ∧
    numChunks (List.replicate 2816 (0:Nat)) ≠
      ((List.replicate 2816 (0:Nat)).length + 1407) / 1408 := by
  rw [length_replicate_nat, numChunks_replicate]
  norm_num [ChunkSize, chunkedDataLen, chunkedHeaderLen]

/-- C1 (amended): `numChunks b` is 1 when `len b ≤ ChunkSize` (1420);
when `len b > ChunkSize` it equals the ceiling `⌈len b / 1408⌉` whenever
1408 does not divide `len b`, and equals that ceiling plus one when 1408
divides `len b` exactly (the code computes `len/1408 + 1` with floor
division). -/
theorem numChunks_eq_ceil_or_succ (b : Bytes) :
    (b.length ≤ ChunkSize → numChunks b = 1) ∧
    (ChunkSize < b.length → ¬ (1408 ∣ b.length) →
      numChunks b = (b.length + 1407) / 1408) ∧
    (ChunkSize < b.length → 1408 ∣ b.length →
      numChunks b = (b.length + 1407) / 1408 + 1) := by
  simp only [numChunks, chunkedDataLen, chunkedHeaderLen, ChunkSize]
  refine ⟨fun h => by rw [if_pos h], fun h hd => ?_, fun h hd => ?_⟩ <;>
    rw [if_neg (by omega)] <;> omega

/-- C1 witness: the amended statement evaluated at the 2816-byte payload. -/
theorem numChunks_eq_ceil_or_succ_witness :
    (ChunkSize < (List.replicate 2816 (0:Nat)).length ∧
      1408 ∣ (List.replicate 2816 (0:Nat)).length) ∧
    numChunks (List.replicate 2816 (0:Nat)) =
      ((List.replicate 2816 (0:Nat)).length + 1407) / 1408 + 1 := by
  have h1 : ChunkSize < (List.replicate 2816 (0:Nat)).length := by
    rw [length_replicate_nat]; norm_num [ChunkSize]
  have h2 : 1408 ∣ (List.replicate 2816 (0:Nat)).length := by
    rw [length_replicate_nat]; norm_num
  exact ⟨⟨h1, h2⟩, (numChunks_eq_ceil_or_succ _).2.2 h1 h2⟩

/-- C3: every `WriteMessage` call releases exactly the pooled buffers it
acquired, on every exit path (success, serialization error, compression
error, transport error, short write, chunked dispatch, and the panic of
the unknown-compression-type arm, whose deferred release still runs). -/
theorem WriteMessage_pool_balanced (w : UDPWriter) (env : Env) :
    (WriteMessage w env).acquired = (WriteMessage w env).released := by
  unfold WriteMessage compressedBranch sendPhase
  rcases env.marshal with e | m
  · rfl
  · repeat' split
    all_goals rfl

/-- C2 counterexample: with gzip compression, a successful write followed
by a failing `zw.Close()` is not surfaced — `WriteMessage` returns `nil`
and still sends the message — because both `zw.Close()` call sites
discard the close error. -/
theorem WriteMessage_close_error_ignored_counterexample :
    envCloseErr.zwCloseErr = some (.external "close failed") ∧
    (WriteMessage gzipWriter envCloseErr).outcome = .ok ∧
    (WriteMessage gzipWriter envCloseErr).sent = [[7, 7]] :=
  ⟨rfl, rfl, rfl⟩

/-- C2 (amended): for Gzip or Zlib, a codec constructor error or a codec
write error is returned verbatim and the message is not sent (no direct
transport write and no chunked dispatch); the compressor's Close error
after a successful write, however, is discarded, not surfaced. -/
theorem WriteMessage_codec_errors_surfaced (w : UDPWriter) (env : Env) (m : Bytes) (e : Err)
    (hty : w.CompressionType = CompressGzip ∨ w.CompressionType = CompressZlib)
    (hm : env.marshal = .ok m) :
    (env.newWriterErr = some e →
      (WriteMessage w env).outcome = .error e ∧
      (WriteMessage w env).sent = [] ∧ (WriteMessage w env).chunkedWith = none) ∧
    (env.newWriterErr = none → env.zwWriteErr = some e →
      (WriteMessage w env).outcome = .error e ∧
      (WriteMessage w env).sent = [] ∧ (WriteMessage w env).chunkedWith = none) := by
  constructor
  · intro hn
    rcases hty with h | h <;>
      simp [WriteMessage, compressedBranch, hm, h, hn, CompressGzip, CompressZlib]
  · intro hn hw
    rcases hty with h | h <;>
      simp [WriteMessage, compressedBranch, hm, h, hn, hw, CompressGzip, CompressZlib]

/-- C2 witness: the amended statement evaluated on a gzip writer whose
codec write fails. -/
theorem WriteMessage_codec_errors_surfaced_witness :
    (gzipWriter.CompressionType = CompressGzip ∧
      envWriteCloseErr.marshal = .ok [1, 2, 3] ∧
      envWriteCloseErr.newWriterErr = none ∧
      envWriteCloseErr.zwWriteErr = some (.external "gzip write failed")) ∧
    (WriteMessage gzipWriter envWriteCloseErr).outcome = .error (.external "gzip write failed") ∧
    (WriteMessage gzipWriter envWriteCloseErr).sent = [] ∧
    (WriteMessage gzipWriter envWriteCloseErr).chunkedWith = none :=
  ⟨⟨rfl, rfl, rfl, rfl⟩,
    (WriteMessage_codec_errors_surfaced gzipWriter envWriteCloseErr [1, 2, 3]
      (.external "gzip write failed") (Or.inl rfl) rfl).2 rfl rfl⟩

/-- C5: for Gzip or Zlib, when the codec write fails the compressor is
still closed before returning, and `WriteMessage` returns the original
write error whatever `zw.Close()` reports (its result is discarded, so
the write error takes precedence in particular). -/
theorem WriteMessage_close_on_write_failure (w : UDPWriter) (env : Env) (m : Bytes) (e : Err)
    (hty : w.CompressionType = CompressGzip ∨ w.CompressionType = CompressZlib)
    (hm : env.marshal = .ok m)
    (hn : env.newWriterErr = none)
    (hw : env.zwWriteErr = some e) :
    (WriteMessage w env).zwClosed = true ∧
    (WriteMessage w env).outcome = .error e := by
  rcases hty with h | h <;>
    simp [WriteMessage, compressedBranch, hm, h, hn, hw, CompressGzip, CompressZlib]

/-- C5 witness: gzip writer, write error and close error both set; the
result is closed-compressor plus the original write error. -/
theorem WriteMessage_close_on_write_failure_witness :
    (gzipWriter.CompressionType = CompressGzip ∧
      envWriteCloseErr.marshal = .ok [1, 2, 3] ∧
      envWriteCloseErr.newWriterErr = none ∧
      envWriteCloseErr.zwWriteErr = some (.external "gzip write failed") ∧
      envWriteCloseErr.zwCloseErr = some (.external "close failed")) ∧
    (WriteMessage gzipWriter envWriteCloseErr).zwClosed = true ∧
    (WriteMessage gzipWriter envWriteCloseErr).outcome = .error (.external "gzip write failed") :=
  ⟨⟨rfl, rfl, rfl, rfl, rfl⟩,
    WriteMessage_close_on_write_failure gzipWriter envWriteCloseErr [1, 2, 3]
      (.external "gzip write failed") (Or.inl rfl) rfl rfl rfl⟩

/-- A 359040-byte payload, long enough that its chunk count exceeds the
one-byte wire field. -/
def bigPayload : Bytes := List.replicate 359040 (0:Nat)

/-- An environment whose serialized record is `bigPayload`. -/
def envBig : Env := { envOk with marshal := .ok bigPayload }

/-- C4 counterexample: a 359040-byte payload yields `numChunks = 256`,
exceeding the one-byte field's 255, and `WriteMessage` (uncompressed)
still hands the payload to the chunked sender — nothing caps or rejects
it. -/
theorem numChunks_unbounded_counterexample :
    255 < numChunks bigPayload ∧
    (WriteMessage noneWriter envBig).chunkedWith = some bigPayload := by
  have hnc : numChunks bigPayload = 256 := by
    rw [bigPayload, numChunks_replicate]
    norm_num [ChunkSize, chunkedDataLen, chunkedHeaderLen]
  refine ⟨by omega, ?_⟩
  simp [WriteMessage, sendPhase, envBig, envOk, noneWriter, hnc,
    CompressGzip, CompressZlib, CompressNone]

/-- C4 (amended): the planner does not cap the chunk count: any payload
of at least 255·1408 bytes produces `numChunks > 255`, and `WriteMessage`
(shown here for the uncompressed type) dispatches such a payload to the
chunked sender unchanged rather than rejecting it. -/
theorem numChunks_exceeds_byte_field (w : UDPWriter) (env : Env) (b : Bytes)
    (hlen : 255 * 1408 ≤ b.length)
    (hty : w.CompressionType = CompressNone)
    (hm : env.marshal = .ok b) :
    255 < numChunks b ∧ (WriteMessage w env).chunkedWith = some b := by
  have h1 : 255 < numChunks b := by
    rw [numChunks, if_neg (by simp only [ChunkSize]; omega)]
    simp only [chunkedDataLen, chunkedHeaderLen, ChunkSize]
    omega
  refine ⟨h1, ?_⟩
  have hred : WriteMessage w env = sendPhase env b 1 false := by
    simp [WriteMessage, hm, hty, CompressNone, CompressGzip, CompressZlib]
  rw [hred, sendPhase, if_pos (by omega)]
  cases env.writeChunkedErr b <;> rfl

/-- C4 witness: the amended statement evaluated at the 359040-byte
payload. -/
theorem numChunks_exceeds_byte_field_witness :
    (255 * 1408 ≤ bigPayload.length ∧
      noneWriter.CompressionType = CompressNone ∧
      envBig.marshal = .ok bigPayload) ∧
    255 < numChunks bigPayload ∧
    (WriteMessage noneWriter envBig).chunkedWith = some bigPayload := by
  have hlen : 255 * 1408 ≤ bigPayload.length := by
    rw [bigPayload, length_replicate_nat]
  exact ⟨⟨hlen, rfl, rfl⟩,
    numChunks_exceeds_byte_field noneWriter envBig bigPayload hlen rfl rfl⟩

theorem numChunks_pos (b : Bytes) : 1 ≤ numChunks b := by
  rw [numChunks]
  split
  · exact le_refl 1
  · exact Nat.succ_le_succ (Nat.zero_le _)

theorem sendPhase_single (env : Env) (zBytes : Bytes) (acq : Nat) (closed : Bool) (n : Nat)
    (hchunk : numChunks zBytes = 1) :
    (sendPhase env zBytes acq closed).sent = [zBytes] ∧
    (env.connWrite zBytes = (n, none) → n ≠ zBytes.length →
      (sendPhase env zBytes acq closed).outcome = .error (.badWrite n zBytes.length)) := by
  rw [sendPhase, if_neg (by omega)]
  constructor
  · split
    · rfl
    · split <;> rfl
  · intro hc hne
    split
    · next k e heq =>
      rw [hc] at heq
      simp at heq
    · next k heq =>
      rw [hc] at heq
      have hk : n = k := by
        injection heq with h1 h2
      subst hk
      rw [if_pos hne]

/-- C6: when the (compressed) payload fits a single datagram, exactly one
transport write of exactly that payload is performed; if the transport
reports no error but a byte count different from the payload length,
`WriteMessage` returns the synthesized bad-write error carrying the
observed and expected counts. -/
theorem WriteMessage_single_datagram (w : UDPWriter) (env : Env) (m zBytes : Bytes) (n : Nat)
    (hm : env.marshal = .ok m)
    (hz : (w.CompressionType = CompressNone ∧ zBytes = m) ∨
          ((w.CompressionType = CompressGzip ∨ w.CompressionType = CompressZlib) ∧
            env.newWriterErr = none ∧ env.zwWriteErr = none ∧ zBytes = env.compress m))
    (hchunk : numChunks zBytes = 1) :
    (WriteMessage w env).sent = [zBytes] ∧
    (env.connWrite zBytes = (n, none) → n ≠ zBytes.length →
      (WriteMessage w env).outcome = .error (.badWrite n zBytes.length)) := by
  rcases hz with ⟨hty, hzb⟩ | ⟨hty, hn, hwr, hzb⟩
  · have hred : WriteMessage w env = sendPhase env zBytes 1 false := by
      simp [WriteMessage, hm, hty, CompressNone, CompressGzip, CompressZlib, hzb]
    rw [hred]
    exact sendPhase_single env zBytes 1 false n hchunk
  · have hred : WriteMessage w env = sendPhase env zBytes 2 true := by
      rcases hty with h | h <;>
        simp [WriteMessage, compressedBranch, hm, h, hn, hwr, CompressGzip, CompressZlib, hzb]
    rw [hred]
    exact sendPhase_single env zBytes 2 true n hchunk

/-- C6 witness: uncompressed 3-byte payload, transport reports 2 bytes
written with no error; `WriteMessage` reports the bad write `(2/3)`. -/
theorem WriteMessage_single_datagram_witness :
    (envShortWrite.marshal = .ok [1, 2, 3] ∧
      noneWriter.CompressionType = CompressNone ∧
      numChunks [1, 2, 3] = 1 ∧
      envShortWrite.connWrite [1, 2, 3] = (2, none)) ∧
    (WriteMessage noneWriter envShortWrite).sent = [[1, 2, 3]] ∧
    (WriteMessage noneWriter envShortWrite).outcome = .error (.badWrite 2 3) := by
  have h := WriteMessage_single_datagram noneWriter envShortWrite [1, 2, 3] [1, 2, 3] 2
    rfl (Or.inl ⟨rfl, rfl⟩) (by decide)
  exact ⟨⟨rfl, rfl, by decide, rfl⟩, h.1, h.2 rfl (by decide)⟩

/-- C7: with CompressType None the bytes handed to the sender are exactly
the serialized record bytes: the single-datagram path writes `m` itself
and the chunked path passes `m` itself to the chunked sender. -/
theorem WriteMessage_none_passthrough (w : UDPWriter) (env : Env) (m : Bytes)
    (hty : w.CompressionType = CompressNone)
    (hm : env.marshal = .ok m) :
    (numChunks m ≤ 1 → (WriteMessage w env).sent = [m]) ∧
    (1 < numChunks m → (WriteMessage w env).chunkedWith = some m) := by
  have hred : WriteMessage w env = sendPhase env m 1 false := by
    simp [WriteMessage, hm, hty, CompressNone, CompressGzip, CompressZlib]
  rw [hred]
  constructor
  · intro hle
    exact (sendPhase_single env m 1 false 0 (le_antisymm hle (numChunks_pos m))).1
  · intro hgt
    rw [sendPhase, if_pos hgt]
    cases env.writeChunkedErr m <;> rfl

/-- C7 witness: the passthrough statement evaluated on the all-success
environment with the 3-byte record. -/
theorem WriteMessage_none_passthrough_witness :
    (noneWriter.CompressionType = CompressNone ∧
      envOk.marshal = .ok [1, 2, 3] ∧ numChunks [1, 2, 3] ≤ 1) ∧
    (WriteMessage noneWriter envOk).sent = [[1, 2, 3]] :=
  ⟨⟨rfl, rfl, by decide⟩,
    (WriteMessage_none_passthrough noneWriter envOk [1, 2, 3] rfl rfl).1 (by decide)⟩

/-- C8: a compression type other than Gzip, Zlib or None makes
`WriteMessage` panic with the formatted unknown-type message rather than
return a recoverable error.  Serialization precedes the switch, so a
successful marshal is assumed. -/
theorem WriteMessage_unknown_type_panics (w : UDPWriter) (env : Env) (m : Bytes)
    (hm : env.marshal = .ok m)
    (h0 : w.CompressionType ≠ CompressGzip)
    (h1 : w.CompressionType ≠ CompressZlib)
    (h2 : w.CompressionType ≠ CompressNone) :
    (WriteMessage w env).outcome =
      .panicked ("unknown compression type " ++ toString w.CompressionType) := by
  simp [WriteMessage, hm, h0, h1, h2]

/-- C8 witness: compression type 3 panics with the formatted message. -/
theorem WriteMessage_unknown_type_panics_witness :
    (envOk.marshal = .ok [1, 2, 3] ∧
      badTypeWriter.CompressionType ≠ CompressGzip ∧
      badTypeWriter.CompressionType ≠ CompressZlib ∧
      badTypeWriter.CompressionType ≠ CompressNone) ∧
    (WriteMessage badTypeWriter envOk).outcome =
      .panicked ("unknown compression type " ++ toString badTypeWriter.CompressionType) :=
  ⟨⟨rfl, by decide, by decide, by decide⟩,
    WriteMessage_unknown_type_panics badTypeWriter envOk [1, 2, 3]
      rfl (by decide) (by decide) (by decide)⟩

/-- C9: the stream-sink adapter `Write` reports `(len p, nil)` when the
underlying `WriteMessage` succeeds — the input length, not the wire byte
count — and `(0, err)` when `WriteMessage` returns the error `err`. -/
theorem Write_adapter (w : UDPWriter) (env : Env) (p : Bytes) :
    ((WriteMessage w env).outcome = .ok → Write w env p = .ret p.length none) ∧
    (∀ e, (WriteMessage w env).outcome = .error e → Write w env p = .ret 0 (some e)) := by
  constructor
  · intro h
    rw [Write, h]
  · intro e h
    rw [Write, h]

/-- C9 witness: on the all-success environment the 5-byte input is
reported written in full, although the wire payload was the 3-byte
serialized record. -/
theorem Write_adapter_witness :
    (WriteMessage noneWriter envOk).outcome = .ok ∧
    Write noneWriter envOk [9, 9, 9, 9, 9] = .ret 5 none :=
  ⟨rfl, (Write_adapter noneWriter envOk [9, 9, 9, 9, 9]).1 rfl⟩

/-- C10: a writer built by `NewUDPWriter` has CompressionLevel
`flate.BestSpeed` and CompressionType left at the zero value, which is
the `CompressGzip` enumerator, so it compresses with gzip by default. -/
theorem NewUDPWriter_defaults (d h : Option Err) (w : UDPWriter)
    (hw : NewUDPWriter d h = .ok w) :
    w.CompressionLevel = flateBestSpeed ∧ w.CompressionType = CompressGzip := by
  cases d with
  | some e => simp [NewUDPWriter] at hw
  | none =>
    cases h with
    | some e => simp [NewUDPWriter] at hw
    | none =>
      rw [NewUDPWriter] at hw
      simp at hw
      rw [← hw]
      exact ⟨rfl, rfl⟩

/-- C10 witness: the constructor applied with both collaborators
succeeding. -/
theorem NewUDPWriter_defaults_witness :
    NewUDPWriter none none =
      .ok { zeroUDPWriter with CompressionLevel := flateBestSpeed } ∧
    ({ zeroUDPWriter with CompressionLevel := flateBestSpeed } : UDPWriter).CompressionLevel
        = flateBestSpeed ∧
    ({ zeroUDPWriter with CompressionLevel := flateBestSpeed } : UDPWriter).CompressionType
        = CompressGzip :=
  ⟨rfl, NewUDPWriter_defaults none none _ rfl⟩

end Gelf


